import Mathlib

/-!
Verification of the ResilientDB-MCP glue layer (server.py, graphql_client.py,
rescontract_client.py) against its natural-language specification.

The Python code is shallowly embedded: JSON values are an inductive type with
integer numbers (no claim involves floats), Python exceptions are an inductive
`Exc` carrying the exception class name and message, external effects (HTTP
responses, subprocess results) are passed in explicitly as oracle values or
oracle functions, and each client/dispatcher function returns its result in
`Except Exc` together with a trace of the external calls it issued, so that
"no external call is attempted" is a statement about the trace.
-/

namespace RdbMcp

/-- A JSON value. Numbers are modelled as integers: every number appearing in
the repository's control flow is an integer, and no claim depends on floats. -/
inductive Json where
  | null
  | bool (b : Bool)
  | num (n : Int)
  | str (s : String)
  | arr (elems : List Json)
  | obj (fields : List (String × Json))

/-- An association-list object body, as produced by parsing a JSON document
(duplicate keys collapse on parsing, so lookups take the first binding). -/
abbrev JsonObj := List (String × Json)

/-- Escape one character the way Python `json.dumps` (ASCII mode) does for the
characters that occur in this development; other control characters and
non-ASCII characters are left unescaped (they occur in no claim). -/
def escapeChar (c : Char) : String :=
  if c = '"' then "\\\""
  else if c = '\\' then "\\\\"
  else if c = '\n' then "\\n"
  else if c = '\t' then "\\t"
  else if c = '\r' then "\\r"
  else String.mk [c]

/-- Escape a string body for embedding between double quotes. -/
def escapeStr (s : String) : String :=
  String.join (s.data.map escapeChar)

mutual

/-- Python `json.dumps(v)` with the default separators (", " between items,
": " after keys), on the integer-numbered fragment. -/
def Json.dumps : Json → String
  | .null => "null"
  | .bool true => "true"
  | .bool false => "false"
  | .num n => toString n
  | .str s => "\"" ++ escapeStr s ++ "\""
  | .arr l => "[" ++ Json.dumpsElems l ++ "]"
  | .obj l => "\x7b" ++ Json.dumpsFields l ++ "\x7d"

/-- Comma-space-joined serializations of array elements. -/
def Json.dumpsElems : List Json → String
  | [] => ""
  | [j] => j.dumps
  | j :: rest => j.dumps ++ ", " ++ Json.dumpsElems rest

/-- Comma-space-joined serializations of object members. -/
def Json.dumpsFields : List (String × Json) → String
  | [] => ""
  | [(k, v)] => "\"" ++ escapeStr k ++ "\": " ++ v.dumps
  | (k, v) :: rest => "\"" ++ escapeStr k ++ "\": " ++ v.dumps ++ ", " ++ Json.dumpsFields rest

end

/-- `n` spaces. -/
def spaces (n : Nat) : String :=
  String.mk (List.replicate n ' ')

mutual

/-- Python `json.dumps(v, indent=2)` at nesting level `lvl`: containers put
each item on its own line, indented two spaces further, with the closing
bracket back at the container's level; empty containers print inline. -/
def Json.dumpsInd (lvl : Nat) : Json → String
  | .null => "null"
  | .bool true => "true"
  | .bool false => "false"
  | .num n => toString n
  | .str s => "\"" ++ escapeStr s ++ "\""
  | .arr [] => "[]"
  | .arr (j :: rest) =>
    "[\n" ++ Json.dumpsIndElems lvl (j :: rest) ++ "\n" ++ spaces (lvl * 2) ++ "]"
  | .obj [] => "\x7b\x7d"
  | .obj (kv :: rest) =>
    "\x7b\n" ++ Json.dumpsIndFields lvl (kv :: rest) ++ "\n" ++ spaces (lvl * 2) ++ "\x7d"

/-- Newline-comma-joined indented serializations of array elements. -/
def Json.dumpsIndElems (lvl : Nat) : List Json → String
  | [] => ""
  | [j] => spaces ((lvl + 1) * 2) ++ j.dumpsInd (lvl + 1)
  | j :: rest =>
    spaces ((lvl + 1) * 2) ++ j.dumpsInd (lvl + 1) ++ ",\n" ++ Json.dumpsIndElems lvl rest

/-- Newline-comma-joined indented serializations of object members. -/
def Json.dumpsIndFields (lvl : Nat) : List (String × Json) → String
  | [] => ""
  | [(k, v)] => spaces ((lvl + 1) * 2) ++ "\"" ++ escapeStr k ++ "\": " ++ v.dumpsInd (lvl + 1)
  | (k, v) :: rest =>
    spaces ((lvl + 1) * 2) ++ "\"" ++ escapeStr k ++ "\": " ++ v.dumpsInd (lvl + 1) ++ ",\n" ++
      Json.dumpsIndFields lvl rest

end

/-- Serialize a whole document with `indent=2` (top level is nesting level 0). -/
def Json.dumps2 (j : Json) : String :=
  j.dumpsInd 0

/-- Field lookup on an object value; `none` when the value is not an object or
lacks the key (Python `dict` membership / subscript on a parsed document). -/
def Json.field (j : Json) (k : String) : Option Json :=
  match j with
  | .obj l => l.lookup k
  | _ => none

/-- Whether a value is a JSON string (Python `isinstance(value, str)`). -/
def Json.isStr : Json → Bool
  | .str _ => true
  | _ => false

/-- The ASCII whitespace Python `str.strip` removes (its further Unicode
whitespace occurs in no claim). -/
def isPyWs (c : Char) : Bool :=
  c = ' ' || c = '\n' || c = '\t' || c = '\r' || c = '\x0b' || c = '\x0c'

/-- Drop leading whitespace characters. -/
def dropLeadingWs : List Char → List Char
  | [] => []
  | c :: cs => if isPyWs c then dropLeadingWs cs else c :: cs

/-- Python `str.strip()`: remove leading and trailing whitespace. -/
def pyStrip (s : String) : String :=
  String.mk ((dropLeadingWs (dropLeadingWs s.data).reverse).reverse)

/-- Python `sep.join(parts)`. -/
def joinWith (sep : String) : List String → String
  | [] => ""
  | [s] => s
  | s :: rest => s ++ sep ++ joinWith sep rest

/-- A Python exception value, restricted to the classes this repository raises
or meets. `className` is Python `type(e).__name__`; `msg` is `str(e)`. -/
inductive Exc where
  | valueError (m : String)
  | keyError (key : String)
  | exception (m : String)
  | fileNotFoundError (m : String)
  | httpStatusError (m : String)
  | attributeError (m : String)
deriving DecidableEq

/-- Python `type(e).__name__` for each modelled exception class. -/
def Exc.className : Exc → String
  | .valueError _ => "ValueError"
  | .keyError _ => "KeyError"
  | .exception _ => "Exception"
  | .fileNotFoundError _ => "FileNotFoundError"
  | .httpStatusError _ => "HTTPStatusError"
  | .attributeError _ => "AttributeError"

/-- Python `str(e)`. A `KeyError` renders as the repr of the missing key,
i.e. the key between single quotation marks. -/
def Exc.msg : Exc → String
  | .valueError m => m
  | .keyError k => "\x27" ++ k ++ "\x27"
  | .exception m => m
  | .fileNotFoundError m => m
  | .httpStatusError m => m
  | .attributeError m => m

/-- An HTTP response whose body has been parsed as JSON
(an httpx response as seen through `response.json()`). -/
structure HttpResponse where
  status : Nat
  body : Json

/-- An HTTP response taken as text (`set_key_value` reads `response.text`). -/
structure TextResponse where
  status : Nat
  text : String

/-- httpx `Response.raise_for_status`: raises `HTTPStatusError` unless the
status code is a 2xx success code. The message text is abbreviated relative
to httpx (no claim depends on it). -/
def raiseForStatus (status : Nat) : Except Exc Unit :=
  if status / 100 = 2 then .ok ()
  else .error (.httpStatusError ("HTTP status error: " ++ toString status))

/-- Python `result.get(k, dflt)` on a parsed document: an `AttributeError`
unless the value is an object (a `dict` in Python). -/
def dictGet (j : Json) (k : String) (dflt : Json) : Except Exc Json :=
  match j with
  | .obj l => .ok ((l.lookup k).getD dflt)
  | _ => .error (.attributeError "the response body is not an object")

/-! ### graphql_client.py -/

/-- The payload POSTed by `execute_query`: the document and the variables
(the `variables` field of the Python payload; `variables` is reserved in
Lean, hence the shortened field name). -/
structure GraphRequest where
  query : String
  vars : JsonObj

/-- `GraphQLClient.execute_query`, given the HTTP response that POSTing the
payload produced: raise for a non-success status; then a body carrying an
`errors` key fails with a generic `Exception` whose message appends the
`indent=2` serialization of the error list; otherwise return the `data`
field, defaulting to an empty object. (The `errors` membership test is
modelled for object bodies, the shape every GraphQL response has.) -/
def execute_query (response : HttpResponse) : Except Exc Json :=
  match raiseForStatus response.status with
  | .error e => .error e
  | .ok _ =>
    let result := response.body
    match result.field "errors" with
    | some errs => .error (.exception ("GraphQL errors: " ++ errs.dumps2))
    | none =>
      match dictGet result "data" (.obj []) with
      | .error e => .error e
      | .ok d => .ok d

/-- The fixed required-field list `post_transaction` validates against. -/
def required_fields : List String :=
  ["operation", "amount", "signerPublicKey", "signerPrivateKey",
   "recipientPublicKey", "asset"]

/-- The PostTransaction mutation document (the whitespace layout of the
Python triple-quoted literal is not reproduced; the text is otherwise
immaterial to every claim). -/
def postTransactionMutation : String :=
  "mutation PostTransaction($data: PrepareAsset!) \x7b postTransaction(data: $data) \x7b id \x7d \x7d"

/-- `GraphQLClient.post_transaction`: compute the required fields absent from
`data` in declaration order; if any, raise a generic `Exception` listing the
missing fields and then restating the full required list, issuing no network
request; otherwise POST the mutation and run `execute_query` on the response
the network oracle `net` returns. The second component is the trace of
network requests issued. -/
def post_transaction (net : GraphRequest → HttpResponse) (data : JsonObj) :
    Except Exc Json × List GraphRequest :=
  let missing := required_fields.filter (fun f => (data.lookup f).isNone)
  if missing.isEmpty then
    let req : GraphRequest := ⟨postTransactionMutation, [("data", Json.obj data)]⟩
    (execute_query (net req), [req])
  else
    (.error (.exception ("Missing required fields in PrepareAsset: " ++
      joinWith ", " missing ++ ". Required fields: " ++
      joinWith ", " required_fields)), [])

/-- `GraphQLClient.get_key_value`, given the HTTP response of the GET on
`/v1/transactions/<key>`: raise for a non-success status, then normalize
into an envelope carrying the key, the body's `value` field (the whole body
when that field is absent), and the raw body. -/
def get_key_value (key : String) (response : HttpResponse) : Except Exc Json :=
  match raiseForStatus response.status with
  | .error e => .error e
  | .ok _ =>
    let result := response.body
    match dictGet result "value" result with
    | .error e => .error e
    | .ok v => .ok (.obj [("key", .str key), ("value", v), ("response", result)])

/-- The value string `set_key_value` transmits: strings pass unchanged, any
other value is serialized to its JSON text form first. -/
def serializeValue (value : Json) : String :=
  match value with
  | .str s => s
  | v => v.dumps

/-- The JSON body `set_key_value` POSTs to `/v1/transactions/commit`. -/
def setRequestBody (key : String) (value : Json) : Json :=
  .obj [("id", .str key), ("value", .str (serializeValue value))]

/-- `GraphQLClient.set_key_value`, given the HTTP response of POSTing
`setRequestBody key value`: raise for a non-success status, then return the
normalized envelope carrying the key, the transmitted value string, a
committed marker, and the trimmed response text. -/
def set_key_value (key : String) (value : Json) (response : TextResponse) :
    Except Exc Json :=
  match raiseForStatus response.status with
  | .error e => .error e
  | .ok _ =>
    .ok (.obj [("key", .str key), ("value", .str (serializeValue value)),
      ("status", .str "committed"), ("response", .str (pyStrip response.text))])

/-! ### A model of Python json.loads

A total, fuel-driven recursive-descent reader for the integer-numbered JSON
fragment, mirroring the strict behavior of Python `json.loads`: surrounding
and separating whitespace is skipped, literals are `null` / `true` / `false`,
strings accept the single-character escapes (`\u` escapes, which occur in no
claim, are rejected), numbers reject leading zeros, and any number with a
fractional part or exponent is rejected because it denotes a Python float,
which the integer-numbered model does not represent. Trailing text after the
document is an error, as in Python. (Python keeps the last of two duplicate
object keys; the model keeps both bindings, with lookups taking the first —
no claim involves duplicate keys.) -/

/-- The opening curly bracket character. -/
def lbrace : Char := Char.ofNat 123

/-- The closing curly bracket character. -/
def rbrace : Char := Char.ofNat 125

/-- JSON insignificant whitespace. -/
def isJsonWs (c : Char) : Bool :=
  c = ' ' || c = '\n' || c = '\t' || c = '\r'

/-- A decimal digit. -/
def isJsonDigit (c : Char) : Bool :=
  '0' ≤ c && c ≤ '9'

/-- Drop leading insignificant whitespace. -/
def skipJsonWs : List Char → List Char
  | [] => []
  | c :: cs => if isJsonWs c then skipJsonWs cs else c :: cs

/-- Split a maximal run of leading digits from the rest. -/
def readDigits : List Char → List Char × List Char
  | [] => ([], [])
  | c :: cs =>
    if isJsonDigit c then
      let r := readDigits cs
      (c :: r.1, r.2)
    else ([], c :: cs)

/-- The value of a digit run. -/
def digitsVal (ds : List Char) : Nat :=
  ds.foldl (fun a c => a * 10 + (c.toNat - 48)) 0

/-- Resolve a single-character string escape. -/
def unescapeJson (c : Char) : Option Char :=
  if c = '"' then some '"'
  else if c = '\\' then some '\\'
  else if c = '/' then some '/'
  else if c = 'n' then some '\n'
  else if c = 't' then some '\t'
  else if c = 'r' then some '\r'
  else if c = 'b' then some (Char.ofNat 8)
  else if c = 'f' then some (Char.ofNat 12)
  else none

/-- Read a string body up to the closing quote, resolving escapes; raw
control characters are rejected as in strict-mode Python. -/
def readStringBody (acc : List Char) : List Char → Option (String × List Char)
  | [] => none
  | '"' :: cs => some (String.mk acc.reverse, cs)
  | '\\' :: e :: cs =>
    match unescapeJson e with
    | some ch => readStringBody (ch :: acc) cs
    | none => none
  | '\\' :: [] => none
  | c :: cs =>
    if c.toNat < 32 then none else readStringBody (c :: acc) cs

/-- Read an integer literal (sign and digit run, no leading zeros); reject a
fractional part or exponent (a Python float, outside the model). -/
def parseJsonInt (cs : List Char) : Option (Json × List Char) :=
  let signSplit := match cs with
    | '-' :: r => (true, r)
    | _ => (false, cs)
  let ds := readDigits signSplit.2
  if ds.1 = [] then none
  else if ds.1.length > 1 && ds.1.head? = some '0' then none
  else
    match ds.2 with
    | '.' :: _ => none
    | 'e' :: _ => none
    | 'E' :: _ => none
    | _ =>
      some (.num (if signSplit.1 then -(digitsVal ds.1 : Int) else (digitsVal ds.1 : Int)), ds.2)

mutual

/-- Read one JSON value, returning it with the unconsumed rest. -/
def parseJsonVal : Nat → List Char → Option (Json × List Char)
  | 0, _ => none
  | fuel + 1, cs =>
    match skipJsonWs cs with
    | [] => none
    | c :: rest =>
      if c = 'n' then
        match rest with
        | 'u' :: 'l' :: 'l' :: r => some (.null, r)
        | _ => none
      else if c = 't' then
        match rest with
        | 'r' :: 'u' :: 'e' :: r => some (.bool true, r)
        | _ => none
      else if c = 'f' then
        match rest with
        | 'a' :: 'l' :: 's' :: 'e' :: r => some (.bool false, r)
        | _ => none
      else if c = '"' then
        match readStringBody [] rest with
        | some (s, r) => some (.str s, r)
        | none => none
      else if c = '[' then
        match skipJsonWs rest with
        | [] => none
        | d :: r2 =>
          if d = ']' then some (.arr [], r2)
          else
            match parseJsonElems fuel (d :: r2) with
            | some (es, r) => some (.arr es, r)
            | none => none
      else if c = lbrace then
        match skipJsonWs rest with
        | [] => none
        | d :: r2 =>
          if d = rbrace then some (.obj [], r2)
          else
            match parseJsonMembers fuel (d :: r2) with
            | some (ms, r) => some (.obj ms, r)
            | none => none
      else if c = '-' || isJsonDigit c then
        parseJsonInt (c :: rest)
      else none

/-- Read one-or-more comma-separated array elements and the closing bracket
(the empty array is handled before this point). -/
def parseJsonElems : Nat → List Char → Option (List Json × List Char)
  | 0, _ => none
  | fuel + 1, cs =>
    match parseJsonVal fuel cs with
    | none => none
    | some (v, r) =>
      match skipJsonWs r with
      | ',' :: r2 =>
        match parseJsonElems fuel r2 with
        | some (vs, r3) => some (v :: vs, r3)
        | none => none
      | ']' :: r2 => some ([v], r2)
      | _ => none

/-- Read one-or-more comma-separated object members and the closing bracket
(the empty object is handled before this point). -/
def parseJsonMembers : Nat → List Char → Option (List (String × Json) × List Char)
  | 0, _ => none
  | fuel + 1, cs =>
    match skipJsonWs cs with
    | '"' :: r =>
      match readStringBody [] r with
      | none => none
      | some (k, r1) =>
        match skipJsonWs r1 with
        | ':' :: r2 =>
          match parseJsonVal fuel r2 with
          | none => none
          | some (v, r3) =>
            match skipJsonWs r3 with
            | ',' :: r4 =>
              match parseJsonMembers fuel r4 with
              | some (ms, r5) => some ((k, v) :: ms, r5)
              | none => none
            | d :: r4 => if d = rbrace then some ([(k, v)], r4) else none
            | [] => none
        | _ => none
    | _ => none

end

/-- Python `json.loads` on the modelled fragment: read one document and
require nothing but whitespace after it; `none` is a `JSONDecodeError`. -/
def Json.loads (s : String) : Option Json :=
  match parseJsonVal (2 * s.data.length + 8) s.data with
  | some (j, rest) => if skipJsonWs rest = [] then some j else none
  | none => none

/-! ### rescontract_client.py -/

/-- What the operating system makes of one subprocess launch: the executable
was not found (Python raises `FileNotFoundError` from
`create_subprocess_exec`), or the process completed with an exit code and
decoded standard output and error texts. -/
inductive SpawnOutcome where
  | notFound
  | completed (returncode : Int) (stdout : String) (stderr : String)

/-- Oracle for subprocess launches: argument vector and working directory in,
outcome out. -/
def OsSpawn := List String → Option String → SpawnOutcome

/-- One recorded subprocess launch: the full argument vector (executable
first) and the working directory it was given. -/
abbrev SpawnEvent := List String × Option String

/-- `ResContractClient._execute_command`: prepend the CLI path, launch; a
launch failure raises a generic `Exception` naming the configured path; a
non-zero exit raises a generic `Exception` carrying the standard-error text
(or a placeholder when it is empty); otherwise the trimmed standard output is
parsed as JSON, a parse failure yielding the raw-output marker object
instead. The second component traces the launches attempted. -/
def execute_command (os : OsSpawn) (cli_path : String) (command : List String)
    (cwd : Option String) : Except Exc Json × List SpawnEvent :=
  let full_command := cli_path :: command
  match os full_command cwd with
  | .notFound =>
    (.error (.exception ("ResContract CLI not found at \x27" ++ cli_path ++ "\x27. " ++
      "Please ensure it\x27s installed and in your PATH, or set RESCONTRACT_CLI_PATH.")),
     [(full_command, cwd)])
  | .completed returncode stdout stderr =>
    if returncode ≠ 0 then
      (.error (.exception ("ResContract CLI error: " ++
        (if stderr = "" then "Unknown error" else stderr))),
       [(full_command, cwd)])
    else
      let output := pyStrip stdout
      (match Json.loads output with
       | some j => .ok j
       | none => .ok (.obj [("output", .str output), ("raw", .bool true)]),
       [(full_command, cwd)])

/-- Split a character list at every slash. -/
def splitSlash : List Char → List (List Char)
  | [] => [[]]
  | c :: cs =>
    let r := splitSlash cs
    if c = '/' then [] :: r
    else
      match r with
      | [] => [[c]]
      | h :: t => (c :: h) :: t

/-- `pathlib` parent of a path string: everything before the final slash, a
dot for a bare filename, the root for a root-level entry. (The `pathlib`
normalizations — collapsing duplicate or trailing slashes — are not
modelled; no claim involves such paths.) -/
def pathParent (p : String) : String :=
  let comps := (splitSlash p.data).map String.mk
  if comps.length ≤ 1 then "."
  else
    let parent := joinWith "/" comps.dropLast
    if parent = "" then "/" else parent

/-- `ResContractClient.compile_contract`, with the local filesystem as an
existence oracle `fs`: a missing source file raises `FileNotFoundError`
before any launch; otherwise run `compile` (plus the optional output
directory, skipped when absent or empty, as Python truthiness does) with the
working directory set to the source file's containing directory. -/
def compile_contract (os : OsSpawn) (fs : String → Bool) (cli_path : String)
    (contract_path : String) (output_dir : Option String) :
    Except Exc Json × List SpawnEvent :=
  if fs contract_path = false then
    (.error (.fileNotFoundError ("Contract file not found: " ++ contract_path)), [])
  else
    execute_command os cli_path
      (["compile", contract_path] ++
        (match output_dir with
         | some d => if d = "" then [] else ["-o", d]
         | none => []))
      (some (pathParent contract_path))

/-- The argument vector `ResContractClient.execute_contract` assembles (before
the CLI path is prepended): the transaction type verbatim, then the contract
address and method name, then the optional account and method arguments
(each skipped when absent or empty, as Python truthiness does). -/
def executeContractCommand (contract_address method_name : String)
    (method_args : Option (List String)) (account_id : Option String)
    (transaction_type : String) : List String :=
  [transaction_type, contract_address, method_name] ++
    (match account_id with
     | some a => if a = "" then [] else ["--account", a]
     | none => []) ++
    (match method_args with
     | some l => if l = [] then [] else "--args" :: l
     | none => [])

/-- `ResContractClient.execute_contract`: run the assembled vector with no
working directory override. -/
def execute_contract (os : OsSpawn) (cli_path contract_address method_name : String)
    (method_args : Option (List String)) (account_id : Option String)
    (transaction_type : String) : Except Exc Json × List SpawnEvent :=
  execute_command os cli_path
    (executeContractCommand contract_address method_name method_args account_id transaction_type)
    none

/-! ### server.py -/

/-- The fixed tool catalog, as declared by `handle_list_tools`: each tool's
name with its declared list of required argument names. -/
def toolSchemas : List (String × List String) :=
  [("createAccount", []),
   ("compileContract", ["contractPath"]),
   ("deployContract", ["contractPath"]),
   ("executeContract", ["contractAddress", "methodName"]),
   ("getTransaction", ["transactionId"]),
   ("postTransaction", ["data"]),
   ("updateTransaction", ["transactionId", "data"]),
   ("get", ["key"]),
   ("set", ["key", "value"]),
   ("getContractState", ["contractAddress"])]

/-- The ten tool names of the catalog. -/
def toolCatalog : List String :=
  toolSchemas.map Prod.fst

/-- The required argument names a catalog tool declares. -/
def requiredOf (name : String) : List String :=
  (toolSchemas.lookup name).getD []

/-- The GraphQL leaf client as the dispatcher sees it: one fallible operation
per method, taking the raw JSON argument values the dispatcher extracted. -/
structure GraphOps where
  create_account : Option Json → Except Exc Json
  get_transaction : Json → Except Exc Json
  post_transaction : Json → Except Exc Json
  update_transaction : Json → Json → Except Exc Json
  get_key_value : Json → Except Exc Json
  set_key_value : Json → Json → Except Exc Json

/-- The ResContract CLI leaf client as the dispatcher sees it. -/
structure CliOps where
  compile_contract : Json → Option Json → Except Exc Json
  deploy_contract : Json → Option Json → Option Json → Except Exc Json
  execute_contract : Json → Json → Option Json → Option Json → Json → Except Exc Json
  get_contract_state : Json → Except Exc Json
  get_transaction : Json → Except Exc Json

/-- One recorded leaf-client invocation (a network request or a subprocess
launch stands behind each of them). -/
inductive ExtCall where
  | graphCreateAccount (account_id : Option Json)
  | graphGetTransaction (transaction_id : Json)
  | graphPostTransaction (data : Json)
  | graphUpdateTransaction (transaction_id data : Json)
  | graphGetKeyValue (key : Json)
  | graphSetKeyValue (key value : Json)
  | cliCompileContract (contract_path : Json) (output_dir : Option Json)
  | cliDeployContract (contract_path : Json) (account_id constructor_args : Option Json)
  | cliExecuteContract (contract_address method_name : Json)
      (method_args account_id : Option Json) (transaction_type : Json)
  | cliGetContractState (contract_address : Json)
  | cliGetTransaction (transaction_id : Json)

/-- Python `arguments[k]`: subscripting a mapping raises `KeyError` on a
missing key. -/
def getArg (args : JsonObj) (k : String) : Except Exc Json :=
  match args.lookup k with
  | some v => .ok v
  | none => .error (.keyError k)

/-- The body of the `try` block of `handle_call_tool`: the name-keyed
if/elif chain that extracts each tool's arguments and routes to the matching
leaf-client operation, with the graph-then-CLI fallback on `getTransaction`
and a `ValueError` on a name outside the catalog. The second component
traces the leaf-client invocations in order. -/
def routeTool (g : GraphOps) (cli : CliOps) (name : String) (args : JsonObj) :
    Except Exc Json × List ExtCall :=
  if name = "createAccount" then
    let account_id := args.lookup "accountId"
    (g.create_account account_id, [.graphCreateAccount account_id])
  else if name = "compileContract" then
    match getArg args "contractPath" with
    | .error e => (.error e, [])
    | .ok contract_path =>
      let output_dir := args.lookup "outputDir"
      (cli.compile_contract contract_path output_dir,
       [.cliCompileContract contract_path output_dir])
  else if name = "deployContract" then
    match getArg args "contractPath" with
    | .error e => (.error e, [])
    | .ok contract_path =>
      let account_id := args.lookup "accountId"
      let constructor_args := args.lookup "constructorArgs"
      (cli.deploy_contract contract_path account_id constructor_args,
       [.cliDeployContract contract_path account_id constructor_args])
  else if name = "executeContract" then
    match getArg args "contractAddress" with
    | .error e => (.error e, [])
    | .ok contract_address =>
      match getArg args "methodName" with
      | .error e => (.error e, [])
      | .ok method_name =>
        let method_args := args.lookup "methodArgs"
        let account_id := args.lookup "accountId"
        let transaction_type := (args.lookup "transactionType").getD (.str "call")
        (cli.execute_contract contract_address method_name method_args account_id
           transaction_type,
         [.cliExecuteContract contract_address method_name method_args account_id
           transaction_type])
  else if name = "getTransaction" then
    match getArg args "transactionId" with
    | .error e => (.error e, [])
    | .ok transaction_id =>
      match g.get_transaction transaction_id with
      | .ok result => (.ok result, [.graphGetTransaction transaction_id])
      | .error _ =>
        (cli.get_transaction transaction_id,
         [.graphGetTransaction transaction_id, .cliGetTransaction transaction_id])
  else if name = "postTransaction" then
    match getArg args "data" with
    | .error e => (.error e, [])
    | .ok data => (g.post_transaction data, [.graphPostTransaction data])
  else if name = "updateTransaction" then
    match getArg args "transactionId" with
    | .error e => (.error e, [])
    | .ok transaction_id =>
      match getArg args "data" with
      | .error e => (.error e, [])
      | .ok data =>
        (g.update_transaction transaction_id data,
         [.graphUpdateTransaction transaction_id data])
  else if name = "get" then
    match getArg args "key" with
    | .error e => (.error e, [])
    | .ok key => (g.get_key_value key, [.graphGetKeyValue key])
  else if name = "set" then
    match getArg args "key" with
    | .error e => (.error e, [])
    | .ok key =>
      match getArg args "value" with
      | .error e => (.error e, [])
      | .ok value => (g.set_key_value key value, [.graphSetKeyValue key value])
  else if name = "getContractState" then
    match getArg args "contractAddress" with
    | .error e => (.error e, [])
    | .ok contract_address =>
      (cli.get_contract_state contract_address,
       [.cliGetContractState contract_address])
  else
    (.error (.valueError ("Unknown tool: " ++ name)), [])

/-- The human-readable message of the failure envelope. -/
def errMsg (name : String) (e : Exc) : String :=
  "Error executing tool \x27" ++ name ++ "\x27: " ++ e.msg

/-- The failure envelope `handle_call_tool` builds in its `except` clause:
the classification name of the caught failure, the human-readable message,
the tool name, and the original argument mapping. -/
def errorEnvelope (e : Exc) (name : String) (args : JsonObj) : Json :=
  .obj [("error", .str e.className), ("message", .str (errMsg name e)),
        ("tool", .str name), ("arguments", .obj args)]

/-- `handle_call_tool`: default a missing argument mapping to empty, run the
routed handler, and wrap the outcome — the raw result on success, the
failure envelope on any raised failure. The second component traces the
leaf-client invocations. -/
def handle_call_tool (g : GraphOps) (cli : CliOps) (name : String)
    (arguments : Option JsonObj) : Json × List ExtCall :=
  let args := arguments.getD []
  match routeTool g cli name args with
  | (.ok result, trace) => (result, trace)
  | (.error e, trace) => (errorEnvelope e name args, trace)

/-- One item of the value `handle_call_tool` hands the transport: the
`TextContent` wrapper around the `indent=2` serialization of the document. -/
structure TextContent where
  type : String
  text : String

/-- The full transport-level return of `handle_call_tool`: a one-element
list holding the serialized envelope. -/
def handle_call_tool_contents (g : GraphOps) (cli : CliOps) (name : String)
    (arguments : Option JsonObj) : List TextContent :=
  [⟨"text", (handle_call_tool g cli name arguments).1.dumps2⟩]

/-! ### Concrete fixtures for witnesses and counterexamples -/

/-- A graph client whose every operation returns `r`. -/
def constGraphOps (r : Except Exc Json) : GraphOps :=
  ⟨fun _ => r, fun _ => r, fun _ => r, fun _ _ => r, fun _ => r, fun _ _ => r⟩

/-- A CLI client whose every operation returns `r`. -/
def constCliOps (r : Except Exc Json) : CliOps :=
  ⟨fun _ _ => r, fun _ _ _ => r, fun _ _ _ _ _ => r, fun _ => r, fun _ => r⟩

/-- A failing graph fetch outcome. -/
def graphDown : Exc := .exception "graph endpoint unreachable"

/-- A failing CLI fetch outcome. -/
def cliDown : Exc := .exception "CLI failure"

/-- An operating system on which every launch completes silently with exit 0. -/
def osQuiet : OsSpawn := fun _ _ => .completed 0 "" ""

/-- An operating system on which every launch completes with exit 0 and the
given standard output. -/
def osEcho (out : String) : OsSpawn := fun _ _ => .completed 0 out ""

/-- A network on which every graph request succeeds with an empty data set. -/
def netOk : GraphRequest → HttpResponse := fun _ => ⟨200, .obj [("data", .obj [])]⟩

/-- A PrepareAsset mapping missing exactly `amount` and `asset`. -/
def dataNoAmountAsset : JsonObj :=
  [("operation", .str "CREATE"), ("signerPublicKey", .str "pk"),
   ("signerPrivateKey", .str "sk"), ("recipientPublicKey", .str "rk")]

/-- Whether `pat` occurs as a contiguous substring of `s`. -/
def substrOf (pat s : String) : Bool :=
  (List.range (s.data.length + 1)).any (fun i => pat.data.isPrefixOf (s.data.drop i))

/-! ## Theorems -/

/-- Every run of `_execute_command` launches exactly the one subprocess built
from the configured CLI path, the assembled command, and the requested
working directory. -/
theorem execute_command_trace (os : OsSpawn) (cli_path : String)
    (command : List String) (cwd : Option String) :
    (execute_command os cli_path command cwd).2 = [(cli_path :: command, cwd)] := by
  cases h : os (cli_path :: command) cwd with
  | notFound => simp [execute_command, h]
  | completed rc out err =>
    by_cases h0 : rc = 0
    · cases hl : Json.loads (pyStrip out) <;> simp [execute_command, h, h0, hl]
    · simp [execute_command, h, h0]

/-- `routeTool` at the transaction-fetch tool, unfolded: extract the
transaction id, try the graph fetch, and on its failure run the CLI fetch. -/
theorem routeTool_getTransaction (g : GraphOps) (cli : CliOps) (args : JsonObj) :
    routeTool g cli "getTransaction" args =
      match getArg args "transactionId" with
      | .error e => (.error e, [])
      | .ok transaction_id =>
        match g.get_transaction transaction_id with
        | .ok result => (.ok result, [.graphGetTransaction transaction_id])
        | .error _ =>
          (cli.get_transaction transaction_id,
           [.graphGetTransaction transaction_id, .cliGetTransaction transaction_id]) := rfl

/-- C1: every call-tool invocation of the dispatcher terminates in exactly one
result envelope — when the routed handler returns normally the envelope is
the raw result, and when any failure is raised (validation, routing, or a
leaf client) it is converted into a failure envelope carrying the failure's
classification name, the human-readable message, the tool name, and the
original argument mapping; no failure reaches the transport. -/
theorem handle_call_tool_one_envelope (g : GraphOps) (cli : CliOps)
    (name : String) (arguments : Option JsonObj) :
    ∃ doc trace,
      handle_call_tool_contents g cli name arguments = [⟨"text", doc.dumps2⟩] ∧
      handle_call_tool g cli name arguments = (doc, trace) ∧
      ((∃ r, routeTool g cli name (arguments.getD []) = (.ok r, trace) ∧ doc = r) ∨
       (∃ e, routeTool g cli name (arguments.getD []) = (.error e, trace) ∧
         doc = .obj [("error", .str e.className), ("message", .str (errMsg name e)),
                     ("tool", .str name), ("arguments", .obj (arguments.getD []))])) := by
  rcases h : routeTool g cli name (arguments.getD []) with ⟨res, trace⟩
  cases res with
  | ok r =>
    exact ⟨r, trace, by simp [handle_call_tool_contents, handle_call_tool, h],
      by simp [handle_call_tool, h], .inl ⟨r, rfl, rfl⟩⟩
  | error e =>
    exact ⟨errorEnvelope e name (arguments.getD []), trace,
      by simp [handle_call_tool_contents, handle_call_tool, h],
      by simp [handle_call_tool, h], .inr ⟨e, rfl, rfl⟩⟩

/-- C2: on the transaction-fetch tool the graph fetch is attempted first; when
it fails the CLI fetch is invoked exactly once afterwards; the caller gets a
failure envelope only when both fail, and that envelope reports the CLI
attempt's error. -/
theorem getTransaction_graph_then_cli (g : GraphOps) (cli : CliOps) (args : JsonObj)
    (txId : Json) (hlookup : args.lookup "transactionId" = some txId) :
    (∀ r, g.get_transaction txId = .ok r →
      handle_call_tool g cli "getTransaction" (some args) =
        (r, [.graphGetTransaction txId])) ∧
    (∀ e1, g.get_transaction txId = .error e1 →
      (∀ r, cli.get_transaction txId = .ok r →
        handle_call_tool g cli "getTransaction" (some args) =
          (r, [.graphGetTransaction txId, .cliGetTransaction txId])) ∧
      (∀ e2, cli.get_transaction txId = .error e2 →
        handle_call_tool g cli "getTransaction" (some args) =
          (errorEnvelope e2 "getTransaction" args,
           [.graphGetTransaction txId, .cliGetTransaction txId]))) := by
  have hgetArg : getArg args "transactionId" = .ok txId := by simp [getArg, hlookup]
  refine ⟨fun r hr => ?_, fun e1 he1 => ⟨fun r hr => ?_, fun e2 he2 => ?_⟩⟩
  · simp [handle_call_tool, routeTool_getTransaction, hgetArg, hr]
  · simp [handle_call_tool, routeTool_getTransaction, hgetArg, he1, hr]
  · simp [handle_call_tool, routeTool_getTransaction, hgetArg, he1, he2]

/-- Witness for C2: with a failing graph client and a failing CLI client, the
one envelope reports the CLI failure, after a graph attempt followed by
exactly one CLI attempt. -/
theorem getTransaction_graph_then_cli_witness :
    handle_call_tool (constGraphOps (.error graphDown)) (constCliOps (.error cliDown))
        "getTransaction" (some [("transactionId", .str "t1")]) =
      (errorEnvelope cliDown "getTransaction" [("transactionId", .str "t1")],
       [.graphGetTransaction (.str "t1"), .cliGetTransaction (.str "t1")]) :=
  ((getTransaction_graph_then_cli (constGraphOps (.error graphDown))
      (constCliOps (.error cliDown)) [("transactionId", .str "t1")] (.str "t1")
      rfl).2 graphDown rfl).2 cliDown rfl

/-- C9: a CLI command exiting with status 0 has its standard output parsed as
JSON and the parsed value returned; when parsing fails the call still
succeeds, returning the trimmed raw text wrapped in the raw-output marker. -/
theorem execute_command_zero_exit (os : OsSpawn) (cli_path : String)
    (command : List String) (cwd : Option String) (out errtxt : String)
    (hspawn : os (cli_path :: command) cwd = .completed 0 out errtxt) :
    (∀ j, Json.loads (pyStrip out) = some j →
      execute_command os cli_path command cwd = (.ok j, [(cli_path :: command, cwd)])) ∧
    (Json.loads (pyStrip out) = none →
      execute_command os cli_path command cwd =
        (.ok (.obj [("output", .str (pyStrip out)), ("raw", .bool true)]),
         [(cli_path :: command, cwd)])) := by
  refine ⟨fun j hj => ?_, fun hj => ?_⟩ <;> simp [execute_command, hspawn, hj]

/-- Witness for C9: exit code 0 with the non-JSON standard output
`deployed at 0xabc` yields the success payload wrapping that text with the
raw marker. -/
theorem execute_command_zero_exit_witness :
    execute_command (osEcho "deployed at 0xabc") "rescontract" ["deploy", "c.sol"] none =
      (.ok (.obj [("output", .str "deployed at 0xabc"), ("raw", .bool true)]),
       [(["rescontract", "deploy", "c.sol"], none)]) :=
  (execute_command_zero_exit (osEcho "deployed at 0xabc") "rescontract"
    ["deploy", "c.sol"] none "deployed at 0xabc" "" rfl).2 rfl

/-- C8: `compile_contract` checks that the source file exists before any
subprocess launch — a missing file fails with `FileNotFoundError` and an
empty launch trace — and when the file exists the one launch runs the
`compile` command with its working directory set to the source file's
containing directory. -/
theorem compile_contract_existence_then_cwd (os : OsSpawn) (fs : String → Bool)
    (cli_path contract_path : String) (output_dir : Option String) :
    (fs contract_path = false →
      compile_contract os fs cli_path contract_path output_dir =
        (.error (.fileNotFoundError ("Contract file not found: " ++ contract_path)), [])) ∧
    (fs contract_path = true →
      (compile_contract os fs cli_path contract_path output_dir).2 =
        [(cli_path :: "compile" :: contract_path ::
            (match output_dir with
             | some d => if d = "" then [] else ["-o", d]
             | none => []),
          some (pathParent contract_path))]) := by
  refine ⟨fun h => ?_, fun h => ?_⟩
  · simp [compile_contract, h]
  · simpa [compile_contract, h] using
      execute_command_trace os cli_path
        (["compile", contract_path] ++
          (match output_dir with
           | some d => if d = "" then [] else ["-o", d]
           | none => []))
        (some (pathParent contract_path))

/-- Witness for C8: a missing file fails fast with no launch; an existing
file `dir/c.sol` compiles with working directory `dir`. -/
theorem compile_contract_existence_then_cwd_witness :
    compile_contract osQuiet (fun _ => false) "rescontract" "dir/c.sol" none =
      (.error (.fileNotFoundError "Contract file not found: dir/c.sol"), []) ∧
    (compile_contract osQuiet (fun _ => true) "rescontract" "dir/c.sol" none).2 =
      [(["rescontract", "compile", "dir/c.sol"], some "dir")] := by
  constructor
  · exact (compile_contract_existence_then_cwd osQuiet (fun _ => false)
      "rescontract" "dir/c.sol" none).1 rfl
  · rw [(compile_contract_existence_then_cwd osQuiet (fun _ => true)
      "rescontract" "dir/c.sol" none).2 rfl]
    rfl

/-- C10: the caller-supplied transaction type lands verbatim in the first
argument slot after the executable path of the one launched subprocess, with
no validation; two invocations differing only in the transaction type
produce argument vectors differing only in that slot. -/
theorem execute_contract_verb_first_slot (os : OsSpawn)
    (cli_path contract_address method_name : String)
    (method_args : Option (List String)) (account_id : Option String)
    (t t2 : String) :
    (execute_contract os cli_path contract_address method_name method_args
        account_id t).2 =
      [(cli_path :: executeContractCommand contract_address method_name method_args
          account_id t, none)] ∧
    (cli_path :: executeContractCommand contract_address method_name method_args
        account_id t)[1]? = some t ∧
    (cli_path :: executeContractCommand contract_address method_name method_args
        account_id t2)[1]? = some t2 ∧
    ∀ i, i ≠ 1 →
      (cli_path :: executeContractCommand contract_address method_name method_args
          account_id t)[i]? =
      (cli_path :: executeContractCommand contract_address method_name method_args
          account_id t2)[i]? := by
  refine ⟨execute_command_trace os cli_path _ _, rfl, rfl, fun i hi => ?_⟩
  rcases i with _ | _ | n
  · rfl
  · exact absurd rfl hi
  · rfl

/-- A string occurs as a substring of any surrounding concatenation. -/
theorem substrOf_of_append (a m b : String) : substrOf m (a ++ m ++ b) = true := by
  have hdata : (a ++ m ++ b).data = a.data ++ (m.data ++ b.data) := by
    rw [String.data_append, String.data_append, List.append_assoc]
  unfold substrOf
  rw [List.any_eq_true]
  refine ⟨a.data.length, List.mem_range.mpr ?_, ?_⟩
  · rw [hdata]
    simp only [List.length_append]
    omega
  · rw [hdata, List.drop_left, List.isPrefixOf_iff_prefix]
    exact List.prefix_append _ _

/-- `routeTool` on a name outside the catalog reaches the final `else` and
raises `ValueError`, invoking no leaf client. -/
theorem routeTool_unknown (g : GraphOps) (cli : CliOps) (name : String) (args : JsonObj)
    (h : name ∉ toolCatalog) :
    routeTool g cli name args = (.error (.valueError ("Unknown tool: " ++ name)), []) := by
  simp only [toolCatalog, toolSchemas, List.map_cons, List.map_nil, List.mem_cons,
    List.not_mem_nil, or_false, not_or] at h
  obtain ⟨h1, h2, h3, h4, h5, h6, h7, h8, h9, h10⟩ := h
  simp [routeTool, h1, h2, h3, h4, h5, h6, h7, h8, h9, h10]

/-- Counterexample to C3 as stated: at the non-catalog name `frobnicate` the
failure envelope's error kind is the string `ValueError` — the code raises a
built-in `ValueError`, and no `UnknownToolError` classification exists — so
the kind is not `UnknownToolError`; the leaf-call trace is empty. -/
theorem unknown_tool_kind_counterexample :
    (handle_call_tool (constGraphOps (.ok .null)) (constCliOps (.ok .null))
        "frobnicate" (some [])).1.field "error" = some (.str "ValueError") ∧
    Json.str "ValueError" ≠ Json.str "UnknownToolError" ∧
    (handle_call_tool (constGraphOps (.ok .null)) (constCliOps (.ok .null))
        "frobnicate" (some [])).2 = [] := by
  refine ⟨rfl, ?_, rfl⟩
  intro h
  injection h with h2
  exact absurd h2 (by decide)

/-- C3 (amended): a call-tool invocation naming a tool outside the ten-tool
catalog yields a failure envelope whose error kind is `ValueError` (the spec
calls this classification `UnknownToolError`), whose message names the
unrecognized tool, and no external call is attempted. -/
theorem unknown_tool_valueerror (g : GraphOps) (cli : CliOps) (name : String)
    (arguments : Option JsonObj) (h : name ∉ toolCatalog) :
    handle_call_tool g cli name arguments =
      (errorEnvelope (.valueError ("Unknown tool: " ++ name)) name (arguments.getD []), []) ∧
    (errorEnvelope (.valueError ("Unknown tool: " ++ name)) name
        (arguments.getD [])).field "error" = some (.str "ValueError") ∧
    substrOf name (errMsg name (.valueError ("Unknown tool: " ++ name))) = true := by
  refine ⟨?_, rfl, ?_⟩
  · simp [handle_call_tool, routeTool_unknown g cli name (arguments.getD []) h]
  · have hassoc : errMsg name (.valueError ("Unknown tool: " ++ name)) =
        "Error executing tool \x27" ++ name ++ ("\x27: " ++ ("Unknown tool: " ++ name)) := by
      simp [errMsg, Exc.msg, String.append_assoc]
    rw [hassoc]
    exact substrOf_of_append _ _ _

/-- Witness for C3 (amended): the unknown name `frobnicate` produces the
`ValueError` envelope with an empty leaf-call trace, and the message names
the tool. -/
theorem unknown_tool_valueerror_witness :
    handle_call_tool (constGraphOps (.ok .null)) (constCliOps (.ok .null))
        "frobnicate" (some []) =
      (errorEnvelope (.valueError ("Unknown tool: " ++ "frobnicate")) "frobnicate" [], []) ∧
    substrOf "frobnicate"
      (errMsg "frobnicate" (.valueError ("Unknown tool: " ++ "frobnicate"))) = true := by
  obtain ⟨h1, _, h3⟩ := unknown_tool_valueerror (constGraphOps (.ok .null))
    (constCliOps (.ok .null)) "frobnicate" (some []) (by decide)
  exact ⟨h1, h3⟩

/-- Counterexample to C4 as stated: calling `compileContract` with an empty
argument mapping (so the required `contractPath` is missing) yields a
failure envelope whose error kind is the string `KeyError` — the code lets
the mapping subscript raise a built-in `KeyError`, and no `ValidationError`
classification exists — so the kind is not `ValidationError`; the leaf-call
trace is empty. -/
theorem missing_arg_kind_counterexample :
    (handle_call_tool (constGraphOps (.ok .null)) (constCliOps (.ok .null))
        "compileContract" (some [])).1.field "error" = some (.str "KeyError") ∧
    Json.str "KeyError" ≠ Json.str "ValidationError" ∧
    (handle_call_tool (constGraphOps (.ok .null)) (constCliOps (.ok .null))
        "compileContract" (some [])).2 = [] := by
  refine ⟨rfl, ?_, rfl⟩
  intro h
  injection h with h2
  exact absurd h2 (by decide)

/-- C4 (amended): a call-tool invocation naming a catalog tool but missing one
of its declared required arguments yields a failure envelope whose error
kind is `KeyError` (the spec calls this classification `ValidationError`),
raised by the argument extraction for some missing required argument, and no
external call is attempted. -/
theorem missing_required_arg_keyerror (g : GraphOps) (cli : CliOps) (name : String)
    (req : List String) (args : JsonObj)
    (hschema : (name, req) ∈ toolSchemas)
    (hmiss : ∃ r ∈ req, args.lookup r = none) :
    ∃ k ∈ req, args.lookup k = none ∧
      handle_call_tool g cli name (some args) =
        (errorEnvelope (.keyError k) name args, []) ∧
      (errorEnvelope (.keyError k) name args).field "error" =
        some (.str "KeyError") := by
  obtain ⟨r, hrmem, hrnone⟩ := hmiss
  simp only [toolSchemas, List.mem_cons, List.not_mem_nil, or_false,
    Prod.mk.injEq] at hschema
  rcases hschema with ⟨hn, hq⟩ | ⟨hn, hq⟩ | ⟨hn, hq⟩ | ⟨hn, hq⟩ | ⟨hn, hq⟩ |
    ⟨hn, hq⟩ | ⟨hn, hq⟩ | ⟨hn, hq⟩ | ⟨hn, hq⟩ | ⟨hn, hq⟩ <;> subst hn <;> subst hq
  · exact absurd hrmem (List.not_mem_nil r)
  · simp only [List.mem_singleton] at hrmem
    subst hrmem
    exact ⟨"contractPath", by simp, hrnone,
      by simp [handle_call_tool, routeTool, getArg, hrnone, errorEnvelope], rfl⟩
  · simp only [List.mem_singleton] at hrmem
    subst hrmem
    exact ⟨"contractPath", by simp, hrnone,
      by simp [handle_call_tool, routeTool, getArg, hrnone, errorEnvelope], rfl⟩
  · simp only [List.mem_cons, List.not_mem_nil, or_false] at hrmem
    rcases hrmem with rfl | rfl
    · exact ⟨"contractAddress", by simp, hrnone,
        by simp [handle_call_tool, routeTool, getArg, hrnone, errorEnvelope], rfl⟩
    · cases hca : args.lookup "contractAddress" with
      | none =>
        exact ⟨"contractAddress", by simp, hca,
          by simp [handle_call_tool, routeTool, getArg, hca, errorEnvelope], rfl⟩
      | some v =>
        exact ⟨"methodName", by simp, hrnone,
          by simp [handle_call_tool, routeTool, getArg, hca, hrnone, errorEnvelope], rfl⟩
  · simp only [List.mem_singleton] at hrmem
    subst hrmem
    exact ⟨"transactionId", by simp, hrnone,
      by simp [handle_call_tool, routeTool, getArg, hrnone, errorEnvelope], rfl⟩
  · simp only [List.mem_singleton] at hrmem
    subst hrmem
    exact ⟨"data", by simp, hrnone,
      by simp [handle_call_tool, routeTool, getArg, hrnone, errorEnvelope], rfl⟩
  · simp only [List.mem_cons, List.not_mem_nil, or_false] at hrmem
    rcases hrmem with rfl | rfl
    · exact ⟨"transactionId", by simp, hrnone,
        by simp [handle_call_tool, routeTool, getArg, hrnone, errorEnvelope], rfl⟩
    · cases hti : args.lookup "transactionId" with
      | none =>
        exact ⟨"transactionId", by simp, hti,
          by simp [handle_call_tool, routeTool, getArg, hti, errorEnvelope], rfl⟩
      | some v =>
        exact ⟨"data", by simp, hrnone,
          by simp [handle_call_tool, routeTool, getArg, hti, hrnone, errorEnvelope], rfl⟩
  · simp only [List.mem_singleton] at hrmem
    subst hrmem
    exact ⟨"key", by simp, hrnone,
      by simp [handle_call_tool, routeTool, getArg, hrnone, errorEnvelope], rfl⟩
  · simp only [List.mem_cons, List.not_mem_nil, or_false] at hrmem
    rcases hrmem with rfl | rfl
    · exact ⟨"key", by simp, hrnone,
        by simp [handle_call_tool, routeTool, getArg, hrnone, errorEnvelope], rfl⟩
    · cases hk : args.lookup "key" with
      | none =>
        exact ⟨"key", by simp, hk,
          by simp [handle_call_tool, routeTool, getArg, hk, errorEnvelope], rfl⟩
      | some v =>
        exact ⟨"value", by simp, hrnone,
          by simp [handle_call_tool, routeTool, getArg, hk, hrnone, errorEnvelope], rfl⟩
  · simp only [List.mem_singleton] at hrmem
    subst hrmem
    exact ⟨"contractAddress", by simp, hrnone,
      by simp [handle_call_tool, routeTool, getArg, hrnone, errorEnvelope], rfl⟩

/-- Witness for C4 (amended): `compileContract` with an empty argument
mapping fails with the `KeyError` envelope for `contractPath` and an empty
leaf-call trace. -/
theorem missing_required_arg_keyerror_witness :
    handle_call_tool (constGraphOps (.ok .null)) (constCliOps (.ok .null))
        "compileContract" (some []) =
      (errorEnvelope (.keyError "contractPath") "compileContract" [], []) ∧
    (errorEnvelope (.keyError "contractPath") "compileContract" []).field "error" =
      some (.str "KeyError") := by
  obtain ⟨k, hk, _, heq, hfield⟩ := missing_required_arg_keyerror
    (constGraphOps (.ok .null)) (constCliOps (.ok .null)) "compileContract"
    ["contractPath"] [] (by decide) ⟨"contractPath", by decide, rfl⟩
  simp only [List.mem_singleton] at hk
  subst hk
  exact ⟨heq, hfield⟩

set_option maxRecDepth 4000 in
/-- Counterexample to C5 as stated: with `amount` and `asset` the only missing
fields, the failure message nonetheless mentions `operation` — a field that
is not missing — because after the missing-field enumeration it restates the
full required list; so the message does not list only the missing names.
Also, the raised failure's classification is the generic `Exception`, not a
`ValidationError`. -/
theorem post_transaction_message_counterexample :
    post_transaction netOk dataNoAmountAsset =
      (.error (.exception ("Missing required fields in PrepareAsset: amount, asset. " ++
        "Required fields: operation, amount, signerPublicKey, signerPrivateKey, " ++
        "recipientPublicKey, asset")), []) ∧
    substrOf "operation"
      ("Missing required fields in PrepareAsset: amount, asset. " ++
        "Required fields: operation, amount, signerPublicKey, signerPrivateKey, " ++
        "recipientPublicKey, asset") = true ∧
    "operation" ∉ required_fields.filter (fun f => (dataNoAmountAsset.lookup f).isNone) ∧
    Exc.className (.exception "m") ≠ "ValidationError" := by
  exact ⟨rfl, by decide, by decide, by decide⟩

/-- C5 (amended): a `post_transaction` call whose data mapping misses any of
the six required fields raises a generic `Exception` (the spec calls this
classification `ValidationError`) before any network request is issued; the
missing-field enumeration in its message lists exactly the required fields
absent from the data, in declaration order, and the message then restates
the full required-field list. -/
theorem post_transaction_missing_fields (net : GraphRequest → HttpResponse)
    (data : JsonObj)
    (hmiss : required_fields.filter (fun f => (data.lookup f).isNone) ≠ []) :
    post_transaction net data =
      (.error (.exception ("Missing required fields in PrepareAsset: " ++
        joinWith ", " (required_fields.filter (fun f => (data.lookup f).isNone)) ++
        ". Required fields: " ++ joinWith ", " required_fields)), []) ∧
    ∀ f, f ∈ required_fields.filter (fun f => (data.lookup f).isNone) ↔
      (f ∈ required_fields ∧ data.lookup f = none) := by
  constructor
  · rw [post_transaction, if_neg]
    rw [List.isEmpty_iff]
    exact hmiss
  · intro f
    simp [List.mem_filter, Option.isNone_iff_eq_none]

/-- Witness for C5 (amended): data missing exactly `amount` and `asset` fails
with the message enumerating those two and restating the six required
fields, with no network request. -/
theorem post_transaction_missing_fields_witness :
    post_transaction netOk dataNoAmountAsset =
      (.error (.exception ("Missing required fields in PrepareAsset: amount, asset. " ++
        "Required fields: operation, amount, signerPublicKey, signerPrivateKey, " ++
        "recipientPublicKey, asset")), []) ∧
    ("amount" ∈ required_fields.filter (fun f => (dataNoAmountAsset.lookup f).isNone) ↔
      ("amount" ∈ required_fields ∧ dataNoAmountAsset.lookup "amount" = none)) := by
  obtain ⟨h1, h2⟩ := post_transaction_missing_fields netOk dataNoAmountAsset (by decide)
  exact ⟨h1, h2 "amount"⟩

/-- Counterexample to C6 as stated: on a success-status response whose body
carries a non-empty `errors` array alongside a `data` field, `execute_query`
fails with a generic `Exception` — no `GraphOperationError` classification
exists in the code — so the raised failure is not a `GraphOperationError`. -/
theorem execute_query_kind_counterexample :
    execute_query ⟨200, .obj [("errors", .arr [.str "boom"]),
        ("data", .obj [("ok", .bool true)])]⟩ =
      .error (.exception "GraphQL errors: [\n  \"boom\"\n]") ∧
    Exc.className (.exception "GraphQL errors: [\n  \"boom\"\n]") = "Exception" ∧
    "Exception" ≠ "GraphOperationError" := by
  exact ⟨rfl, rfl, by decide⟩

/-- C6 (amended): a GraphQL response with a success status whose JSON body
carries a non-empty `errors` array makes `execute_query` fail with a generic
`Exception` (the spec calls this classification `GraphOperationError`)
whose message carries the serialized error list, even when a `data` field is
present in the same body; the data is never returned. -/
theorem execute_query_body_errors (resp : HttpResponse) (errs : Json) (l : List Json)
    (hstatus : resp.status / 100 = 2)
    (herrs : resp.body.field "errors" = some errs)
    (_harr : errs = .arr l) (_hne : l ≠ []) :
    execute_query resp = .error (.exception ("GraphQL errors: " ++ errs.dumps2)) ∧
    ∀ d, execute_query resp ≠ .ok d := by
  have h1 : execute_query resp =
      .error (.exception ("GraphQL errors: " ++ errs.dumps2)) := by
    simp [execute_query, raiseForStatus, hstatus, herrs]
  exact ⟨h1, fun d => by simp [h1]⟩

/-- Witness for C6 (amended): a 200 response with one error and a `data`
field fails with the generic `Exception` carrying the serialized list. -/
theorem execute_query_body_errors_witness :
    execute_query ⟨200, .obj [("errors", .arr [.str "boom"]),
        ("data", .obj [("ok", .bool true)])]⟩ =
      .error (.exception "GraphQL errors: [\n  \"boom\"\n]") :=
  (execute_query_body_errors ⟨200, .obj [("errors", .arr [.str "boom"]),
      ("data", .obj [("ok", .bool true)])]⟩ (.arr [.str "boom"]) [.str "boom"]
    rfl rfl rfl (List.cons_ne_nil _ _)).1

/-- C7: on the REST key-value path a non-string value is serialized to its
JSON text form before transmission (the POSTed body carries exactly that
string), the set response is normalized into the key/value envelope shape,
string values pass unchanged, and a subsequent get whose response body
echoes the stored string returns a value equal to that serialized string. -/
theorem kv_set_serializes_and_roundtrips (key : String) (value : Json)
    (setResp : TextResponse) (getStatus : Nat)
    (hnotstr : value.isStr = false)
    (hset : setResp.status / 100 = 2) (hget : getStatus / 100 = 2) :
    serializeValue value = value.dumps ∧
    setRequestBody key value = .obj [("id", .str key), ("value", .str value.dumps)] ∧
    set_key_value key value setResp =
      .ok (.obj [("key", .str key), ("value", .str value.dumps),
        ("status", .str "committed"), ("response", .str (pyStrip setResp.text))]) ∧
    get_key_value key ⟨getStatus, .obj [("value", .str value.dumps)]⟩ =
      .ok (.obj [("key", .str key), ("value", .str value.dumps),
        ("response", .obj [("value", .str value.dumps)])]) ∧
    ∀ s, serializeValue (.str s) = s := by
  have hser : serializeValue value = value.dumps := by
    cases value <;> simp_all [serializeValue, Json.isStr]
  refine ⟨hser, ?_, ?_, ?_, fun s => rfl⟩
  · simp [setRequestBody, hser]
  · simp [set_key_value, raiseForStatus, hset, hser]
  · simp [get_key_value, raiseForStatus, hget, dictGet, List.lookup]

/-- Witness for C7: setting the object value with one field `a = 1` under key
`k` transmits and returns its JSON serialization, and a get whose response
echoes the stored string returns that same serialization. -/
theorem kv_set_serializes_and_roundtrips_witness :
    set_key_value "k" (.obj [("a", .num 1)]) ⟨200, "id: k"⟩ =
      .ok (.obj [("key", .str "k"), ("value", .str "\x7b\"a\": 1\x7d"),
        ("status", .str "committed"), ("response", .str "id: k")]) ∧
    get_key_value "k" ⟨200, .obj [("value", .str "\x7b\"a\": 1\x7d")]⟩ =
      .ok (.obj [("key", .str "k"), ("value", .str "\x7b\"a\": 1\x7d"),
        ("response", .obj [("value", .str "\x7b\"a\": 1\x7d")])]) := by
  obtain ⟨_, _, h3, h4, _⟩ := kv_set_serializes_and_roundtrips "k"
    (.obj [("a", .num 1)]) ⟨200, "id: k"⟩ 200 rfl rfl rfl
  exact ⟨h3, h4⟩

end RdbMcp
